import Mathlib

/-!
Verification of the Mini-CyberArk vault (src/main.go) against its
natural-language specification.

The Go program is a small HTTP vault backed by MongoDB:
  * `createCredential` (main.go:90-133) inserts a `Credential` document;
    a unique index on `username` (main.go:61-67) rejects duplicates with
    error code 11000, surfaced as HTTP 409.
  * `retrieveCredential` (main.go:136-188) looks the record up by
    username (404 when absent), answers immediately with the stored
    password, and spawns a goroutine that sleeps 10 seconds and then
    performs an unconditional `UpdateOne` setting `password` and
    `last_rotated`.

The embedding below models the MongoDB collection as a list of records
(the unique index keeps usernames distinct, and `FindOne` / `UpdateOne`
touch the first match), timestamps as naturals, and the set of live
rotation goroutines as a list of pending rotations.  Random password
generation and the driver-assigned object id are oracles passed in as
parameters.  A process restart keeps the store (MongoDB is durable) and
drops every pending goroutine (they live only in process memory).
-/

namespace MiniCyberArk

/-- The `Credential` struct (main.go:22-27): object id, username,
password, and the `last_rotated` timestamp.  Timestamps and object ids
are modelled as naturals. -/
structure Credential where
  id : Nat
  username : String
  password : String
  lastRotated : Nat
deriving Repr, DecidableEq

/-- The bson field names of a stored credential document, read off the
struct tags in main.go:22-27 (`_id`, `username`, `password`,
`last_rotated`).  These are the only fields a stored record carries. -/
def credentialBsonFields : List String := ["_id", "username", "password", "last_rotated"]

/-- The fields written by the rotation's `$set` update (main.go:178-181). -/
def rotationSetFields : List String := ["password", "last_rotated"]

/-- The rotation delay: `time.Sleep(10 * time.Second)` (main.go:170). -/
def rotationDelaySeconds : Nat := 10

/-- One live rotation goroutine (main.go:169-187): the username and the
new password are captured at spawn time, and the update fires after the
10-second sleep. -/
structure Rotation where
  username : String
  newPassword : String
  firesAt : Nat
deriving Repr, DecidableEq

/-- Process state: the durable MongoDB collection plus the rotation
goroutines currently alive in the process. -/
structure VaultState where
  store : List Credential
  pending : List Rotation
deriving Repr, DecidableEq

/-- The HTTP responses the two handlers can produce. -/
inductive Resp where
  | created201 (username password : String)
  | conflict409
  | badRequest400
  | notFound404
  | ok200 (username password : String) (retrievedTime : Nat)
  deriving Repr, DecidableEq

/-- `FindOne` on the filter `{username: un}` (main.go:147): the first
record whose username matches, if any. -/
def findCred (store : List Credential) (un : String) : Option Credential :=
  store.find? (fun c => c.username = un)

/-- Outcome of `InsertOne` under the unique index on `username`. -/
inductive InsertResult where
  | ok (store : List Credential)
  | dupKey
  deriving Repr, DecidableEq

/-- `InsertOne` (main.go:110) under the unique index `uniq_username`
(main.go:61-67): the insert itself fails with duplicate-key error 11000
when a record with the same username already exists; there is no
pre-check in the handler. -/
def insertOne (store : List Credential) (c : Credential) : InsertResult :=
  if store.any (fun c0 => c0.username = c.username) then .dupKey
  else .ok (store ++ [c])

/-- The `/create` handler `createCredential` (main.go:90-133): rejects
empty username or password with 400, then attempts the insert; a
duplicate key yields 409 and leaves the store untouched; success yields
201.  `oid` is the driver-assigned object id and `now` the value of
`time.Now()` stored in `last_rotated` (main.go:109). -/
def createCredential (s : VaultState) (un pw : String) (oid now : Nat) :
    VaultState × Resp :=
  if un = "" ∨ pw = "" then (s, .badRequest400)
  else
    match insertOne s.store ⟨oid, un, pw, now⟩ with
    | .dupKey => (s, .conflict409)
    | .ok store' => ({ s with store := store' }, .created201 un pw)

/-- `UpdateOne` on the filter `{username: un}` with
`$set {password, last_rotated}` (main.go:178-182): rewrites the first
matching record's password and `last_rotated`, leaves everything else
alone, and reports the matched count (0 or 1); no error is raised when
nothing matches. -/
def updateOne (store : List Credential) (un npw : String) (t : Nat) :
    List Credential × Nat :=
  match store with
  | [] => ([], 0)
  | c :: rest =>
    if c.username = un then
      ({ c with password := npw, lastRotated := t } :: rest, 1)
    else
      let r := updateOne rest un npw t
      (c :: r.1, r.2)

/-- The `/retrieve/` handler `retrieveCredential` (main.go:136-188):
400 on an empty path suffix, 404 when the username is absent (and then
nothing is scheduled), otherwise it answers 200 with the password
captured from the single `FindOne` read and spawns one rotation
goroutine carrying the freshly generated password `npw`
(main.go:168-187). -/
def retrieveCredential (s : VaultState) (un npw : String) (now : Nat) :
    VaultState × Resp :=
  if un = "" then (s, .badRequest400)
  else
    match findCred s.store un with
    | none => (s, .notFound404)
    | some c =>
      ({ s with pending := s.pending ++ [⟨un, npw, now + rotationDelaySeconds⟩] },
       .ok200 un c.password now)

/-- A pending rotation goroutine wakes up at time `t` and runs its
unconditional `UpdateOne` (main.go:170-186); the goroutine then ends. -/
def fireRotation (s : VaultState) (r : Rotation) (t : Nat) :
    VaultState × Nat :=
  let u := updateOne s.store r.username r.newPassword t
  ({ store := u.1, pending := s.pending.erase r }, u.2)

/-- A process restart: MongoDB keeps the records, the in-process
goroutines (including any sleeping rotation) are gone. -/
def restart (s : VaultState) : VaultState :=
  { store := s.store, pending := [] }

/-- Number of pending rotations targeting a given username. -/
def pendingFor (s : VaultState) (un : String) : Nat :=
  (s.pending.filter (fun r => r.username = un)).length

/-- One dispatch step: some live rotation goroutine fires at some time. -/
inductive FireStep : VaultState → VaultState → Prop where
  | fire (s : VaultState) (r : Rotation) (t : Nat) (h : r ∈ s.pending) :
      FireStep s (fireRotation s r t).1

/-- Zero or more dispatch steps. -/
def ReachFire : VaultState → VaultState → Prop :=
  Relation.ReflTransGen FireStep

/-! Concrete demonstration states: create `alice` with password
`Init@123`, then retrieve once or twice; each retrieve spawns a
rotation goroutine whose fresh password is the oracle argument. -/

/-- State after `POST /create {alice, Init@123}` at time 100 (object
id 1). -/
def demoCreated : VaultState := (createCredential ⟨[], []⟩ "alice" "Init@123" 1 100).1

/-- The rotation goroutine spawned by the first demo retrieve. -/
def rotA : Rotation := ⟨"alice", "NPW1aaaaaaaa", 111⟩

/-- The rotation goroutine spawned by the second demo retrieve. -/
def rotB : Rotation := ⟨"alice", "NPW2bbbbbbbb", 112⟩

/-- State after one `GET /retrieve/alice` at time 101. -/
def demoOneRetrieve : VaultState :=
  (retrieveCredential demoCreated "alice" "NPW1aaaaaaaa" 101).1

/-- State after a second `GET /retrieve/alice` at time 102, within the
10-second window of the first: both goroutines are now sleeping. -/
def demoTwoRetrieves : VaultState :=
  (retrieveCredential demoOneRetrieve "alice" "NPW2bbbbbbbb" 102).1

/-! Helper lemmas about the store operations. -/

/-- Unfolding `FindOne` over a non-empty collection. -/
theorem findCred_cons (c : Credential) (rest : List Credential) (un : String) :
    findCred (c :: rest) un = if c.username = un then some c else findCred rest un := by
  by_cases h : c.username = un
  · simp [findCred, List.find?_cons_of_pos, h]
  · simp [findCred, List.find?_cons_of_neg, h]

/-- `UpdateOne` on a filter that matches nothing leaves the collection
unchanged and reports a matched count of 0 (and no error). -/
theorem updateOne_of_find_none (store : List Credential) (un npw : String) (t : Nat)
    (h : findCred store un = none) : updateOne store un npw t = (store, 0) := by
  induction store with
  | nil => rfl
  | cons c rest ih =>
    rw [findCred_cons] at h
    by_cases hc : c.username = un
    · rw [if_pos hc] at h; exact absurd h (by simp)
    · rw [if_neg hc] at h
      simp [updateOne, hc, ih h]

/-- `UpdateOne` on a filter that matches the record `c` always applies:
matched count 1, and the stored record becomes `c` with the new
password and `last_rotated`, whatever `c`'s previous contents were. -/
theorem updateOne_of_find_some (store : List Credential) (un npw : String) (t : Nat)
    (c : Credential) (h : findCred store un = some c) :
    (updateOne store un npw t).2 = 1 ∧
    findCred (updateOne store un npw t).1 un
      = some { c with password := npw, lastRotated := t } := by
  induction store with
  | nil => simp [findCred] at h
  | cons c0 rest ih =>
    rw [findCred_cons] at h
    by_cases hc : c0.username = un
    · rw [if_pos hc] at h
      injection h with h
      subst h
      refine ⟨by simp [updateOne, hc], ?_⟩
      simp [updateOne, hc, findCred_cons]
    · rw [if_neg hc] at h
      have := ih h
      refine ⟨by simp [updateOne, hc, this.1], ?_⟩
      simp [updateOne, hc, findCred_cons, this.2]

/-- The matched count of `UpdateOne` is 1 exactly when the username is
present, 0 otherwise; there is no conflict outcome. -/
theorem updateOne_matched (store : List Credential) (un npw : String) (t : Nat) :
    (updateOne store un npw t).2 = if (findCred store un).isSome then 1 else 0 := by
  induction store with
  | nil => simp [updateOne, findCred]
  | cons c rest ih =>
    by_cases hc : c.username = un <;> simp [updateOne, findCred_cons, hc, ih]

/-- After inserting a fresh username, `FindOne` returns the inserted
record. -/
theorem findCred_append_self (store : List Credential) (c : Credential)
    (h : findCred store c.username = none) :
    findCred (store ++ [c]) c.username = some c := by
  induction store with
  | nil => simp [findCred, List.find?]
  | cons c0 rest ih =>
    rw [findCred_cons] at h
    rw [List.cons_append, findCred_cons]
    by_cases hc : c0.username = c.username
    · rw [if_pos hc] at h; exact absurd h (by simp)
    · rw [if_neg hc] at h
      rw [if_neg hc]
      exact ih h

/-- Record-by-record effect of `UpdateOne`: every position keeps its
object id and username, and each record is either untouched or is the
matching record with only `password` and `last_rotated` rewritten. -/
theorem updateOne_get? (store : List Credential) (un npw : String) (t i : Nat) :
    (((updateOne store un npw t).1.get? i).map fun c => (c.id, c.username))
      = ((store.get? i).map fun c => (c.id, c.username))
    ∧ ((updateOne store un npw t).1.get? i = store.get? i
       ∨ ∃ c, store.get? i = some c ∧ c.username = un ∧
           (updateOne store un npw t).1.get? i
             = some { c with password := npw, lastRotated := t }) := by
  induction store generalizing i with
  | nil => simp [updateOne]
  | cons c rest ih =>
    by_cases hc : c.username = un
    · cases i with
      | zero => exact ⟨by simp [updateOne, hc], Or.inr ⟨c, by simp [updateOne, hc]⟩⟩
      | succ j => exact ⟨by simp [updateOne, hc], Or.inl (by simp [updateOne, hc])⟩
    · cases i with
      | zero => exact ⟨by simp [updateOne, hc], Or.inl (by simp [updateOne, hc])⟩
      | succ j =>
        have := ih j
        exact ⟨by simpa [updateOne, hc] using this.1,
               by simpa [updateOne, hc] using this.2⟩

/-! Claims. -/

/-- Claim C1, counterexample: two retrieves of `alice` inside the delay
window schedule two rotations, and when their goroutines fire BOTH
writes apply — each `UpdateOne` matches (count 1) and visibly rewrites
the password, the second against a record that no longer holds the
value observed when it was scheduled.  This refutes "at most one of the
two scheduled rotations successfully writes" and "no password write is
ever applied against a version of the record other than the one
observed at scheduling time". -/
theorem c1_counterexample :
    (fireRotation demoTwoRetrieves rotA 111).2 = 1
    ∧ findCred (fireRotation demoTwoRetrieves rotA 111).1.store "alice"
        = some ⟨1, "alice", "NPW1aaaaaaaa", 111⟩
    ∧ (fireRotation (fireRotation demoTwoRetrieves rotA 111).1 rotB 112).2 = 1
    ∧ findCred (fireRotation (fireRotation demoTwoRetrieves rotA 111).1 rotB 112).1.store "alice"
        = some ⟨1, "alice", "NPW2bbbbbbbb", 112⟩ := by decide

/-- Claim C1, amended: when two rotations target a username that is
present in the store, firing them in sequence applies BOTH writes
unconditionally — each `UpdateOne` matches, and the record ends up with
the later rotation's password and timestamp (last-writer-wins); no
rotation is ever cancelled and no version check exists. -/
theorem c1_amended (s : VaultState) (r1 r2 : Rotation) (t1 t2 : Nat) (c : Credential)
    (hr : r2.username = r1.username)
    (h : findCred s.store r1.username = some c) :
    (fireRotation s r1 t1).2 = 1
    ∧ (fireRotation (fireRotation s r1 t1).1 r2 t2).2 = 1
    ∧ findCred (fireRotation (fireRotation s r1 t1).1 r2 t2).1.store r1.username
        = some { c with password := r2.newPassword, lastRotated := t2 } := by
  have h1 := updateOne_of_find_some s.store r1.username r1.newPassword t1 c h
  have h2 := updateOne_of_find_some (updateOne s.store r1.username r1.newPassword t1).1
      r1.username r2.newPassword t2 _ h1.2
  refine ⟨by simp [fireRotation, h1.1], ?_, ?_⟩
  · simpa [fireRotation, hr] using h2.1
  · simpa [fireRotation, hr] using h2.2

/-- Witness for the amended C1 on the concrete double-retrieve trace. -/
theorem c1_amended_witness :
    (fireRotation demoTwoRetrieves rotA 111).2 = 1
    ∧ (fireRotation (fireRotation demoTwoRetrieves rotA 111).1 rotB 112).2 = 1
    ∧ findCred (fireRotation (fireRotation demoTwoRetrieves rotA 111).1 rotB 112).1.store "alice"
        = some ⟨1, "alice", "NPW2bbbbbbbb", 112⟩ :=
  c1_amended demoTwoRetrieves rotA rotB 111 112 ⟨1, "alice", "Init@123", 100⟩ rfl rfl

/-- Claim C2, counterexample: a rotation scheduled by a retrieve lives
only as a sleeping goroutine; a process restart drops it.  Before the
restart one rotation for `alice` is pending, after the restart none is
and none can ever fire — refuting "after a process restart every job
that was Pending at the time of the crash is still present". -/
theorem c2_counterexample :
    pendingFor demoOneRetrieve "alice" = 1
    ∧ (restart demoOneRetrieve).pending = []
    ∧ pendingFor (restart demoOneRetrieve) "alice" = 0 := by decide

/-- Claim C2, amended: no rotation state is persisted before the
schedule is acknowledged — rotations are goroutines in process memory,
so a restart discards every pending rotation, and from a restarted
state no dispatch step is possible: every state reachable by firing
rotations is the restarted state itself, whose store is the pre-restart
store and whose pending set is empty. -/
theorem c2_amended (s s' : VaultState) (h : ReachFire (restart s) s') :
    s' = restart s ∧ s'.pending = [] ∧ s'.store = s.store := by
  have h' : Relation.ReflTransGen FireStep (restart s) s' := h
  clear h
  have key : s' = restart s := by
    induction h' with
    | refl => rfl
    | tail hab hbc ih =>
      rw [ih] at hbc
      cases hbc with
      | fire r t hr => exact absurd hr (by simp [restart])
  exact ⟨key, by simp [key, restart], by simp [key, restart]⟩

/-- Witness for the amended C2 on the concrete one-retrieve trace. -/
theorem c2_amended_witness :
    restart demoOneRetrieve = restart demoOneRetrieve
    ∧ (restart demoOneRetrieve).pending = []
    ∧ (restart demoOneRetrieve).store = demoOneRetrieve.store :=
  c2_amended demoOneRetrieve (restart demoOneRetrieve) Relation.ReflTransGen.refl

/-- Claim C3, counterexample: a stored credential document carries only
the fields `_id`, `username`, `password`, `last_rotated` (the struct
tags in main.go:22-27); it has no `version` field, so no create sets
`version = 1` and no write increments a version. -/
theorem c3_counterexample : "version" ∉ credentialBsonFields := by decide

/-- Claim C3, amended: a credential record has no version counter —
its bson fields are exactly `_id`, `username`, `password`,
`last_rotated` — and the stored password at any instant is the value of
the most recently applied write: applying a rotation write rewrites the
stored password to that write's value unconditionally
(last-writer-wins, with no version ordering). -/
theorem c3_amended (store : List Credential) (un npw : String) (t : Nat) (c : Credential)
    (h : findCred store un = some c) :
    "version" ∉ credentialBsonFields
    ∧ findCred (updateOne store un npw t).1 un
        = some { c with password := npw, lastRotated := t } :=
  ⟨by decide, (updateOne_of_find_some store un npw t c h).2⟩

/-- Witness for the amended C3 on the concrete created store. -/
theorem c3_amended_witness :
    "version" ∉ credentialBsonFields
    ∧ findCred (updateOne demoCreated.store "alice" "NPW1aaaaaaaa" 111).1 "alice"
        = some ⟨1, "alice", "NPW1aaaaaaaa", 111⟩ :=
  c3_amended demoCreated.store "alice" "NPW1aaaaaaaa" 111 ⟨1, "alice", "Init@123", 100⟩ rfl

/-- Claim C4, counterexample: rotation A was scheduled when `alice`
held `Init@123`; rotation B then fires and changes the record.  Firing
the stale rotation A afterwards still matches (count 1, no conflict
signal) and overwrites the newer password — refuting "on a version
mismatch it returns a VersionConflict signal without overwriting the
record". -/
theorem c4_counterexample :
    findCred (fireRotation demoTwoRetrieves rotB 112).1.store "alice"
      = some ⟨1, "alice", "NPW2bbbbbbbb", 112⟩
    ∧ (fireRotation (fireRotation demoTwoRetrieves rotB 112).1 rotA 115).2 = 1
    ∧ findCred (fireRotation (fireRotation demoTwoRetrieves rotB 112).1 rotA 115).1.store "alice"
        = some ⟨1, "alice", "NPW1aaaaaaaa", 115⟩ := by decide

/-- Claim C4, amended: the rotation's write is an unconditional
`UpdateOne` keyed on the username alone — it takes no expected version
and performs no check: it matches exactly when the username is present
(count 1, else 0, never a conflict), rewrites the matched record's
password and `last_rotated` whatever the record currently holds, and
when nothing matches it leaves the store unchanged without error. -/
theorem c4_amended (store : List Credential) (un npw : String) (t : Nat) :
    (updateOne store un npw t).2 = (if (findCred store un).isSome then 1 else 0)
    ∧ findCred (updateOne store un npw t).1 un
        = Option.map (fun c => { c with password := npw, lastRotated := t }) (findCred store un)
    ∧ ((findCred store un).isSome = true ∨ updateOne store un npw t = (store, 0)) := by
  refine ⟨updateOne_matched store un npw t, ?_, ?_⟩
  · cases hf : findCred store un with
    | none => simp [updateOne_of_find_none store un npw t hf, hf]
    | some c => simp [(updateOne_of_find_some store un npw t c hf).2]
  · cases hf : findCred store un with
    | none => exact Or.inr (updateOne_of_find_none store un npw t hf)
    | some c => exact Or.inl (by simp [hf])

/-- Claim C5, counterexample: after two retrieves of `alice` inside the
delay window, TWO rotations for `alice` are pending at once — refuting
"at most one rotation job is in the Pending or Running state at any
instant". -/
theorem c5_counterexample : pendingFor demoTwoRetrieves "alice" = 2 := by decide

/-- Claim C5, amended: every successful retrieve unconditionally spawns
one more rotation goroutine for the username — the new rotation is
appended to the pending set regardless of what is already there
(no rejection, no coalescing), so the pending count for the username
grows by one on each retrieve. -/
theorem c5_amended (s : VaultState) (un npw : String) (now : Nat) (c : Credential)
    (hne : un ≠ "") (h : findCred s.store un = some c) :
    (retrieveCredential s un npw now).1.pending
      = s.pending ++ [⟨un, npw, now + rotationDelaySeconds⟩]
    ∧ pendingFor (retrieveCredential s un npw now).1 un = pendingFor s un + 1 := by
  refine ⟨by simp [retrieveCredential, hne, h], ?_⟩
  simp [retrieveCredential, hne, h, pendingFor, List.filter_append]

/-- Witness for the amended C5 on the concrete created store. -/
theorem c5_amended_witness :
    (retrieveCredential demoCreated "alice" "NPW1aaaaaaaa" 101).1.pending
      = demoCreated.pending ++ [⟨"alice", "NPW1aaaaaaaa", 101 + rotationDelaySeconds⟩]
    ∧ pendingFor (retrieveCredential demoCreated "alice" "NPW1aaaaaaaa" 101).1 "alice"
      = pendingFor demoCreated "alice" + 1 :=
  c5_amended demoCreated "alice" "NPW1aaaaaaaa" 101 ⟨1, "alice", "Init@123", 100⟩
    (by decide) rfl

/-- Claim C6: for a username present in the store, the retrieval
response is exactly the password captured from the single `FindOne`
read, and it is the same whatever rotation goroutines are already
pending and whatever new password the scheduled rotation will carry —
the response never depends on the scheduling side effect.  (In the
source the response is written before the goroutine is spawned, and a
`go` statement cannot fail, so scheduling can neither block nor fail
the response.) -/
theorem c6_retrieve_immediate (store : List Credential) (p1 p2 : List Rotation)
    (un npw1 npw2 : String) (now : Nat) (c : Credential)
    (hne : un ≠ "") (h : findCred store un = some c) :
    (retrieveCredential ⟨store, p1⟩ un npw1 now).2 = .ok200 un c.password now
    ∧ (retrieveCredential ⟨store, p1⟩ un npw1 now).2
        = (retrieveCredential ⟨store, p2⟩ un npw2 now).2 := by
  constructor <;> simp [retrieveCredential, hne, h]

/-- Witness for C6 on the concrete created store. -/
theorem c6_witness :
    (retrieveCredential ⟨demoCreated.store, []⟩ "alice" "NPW1aaaaaaaa" 101).2
      = .ok200 "alice" "Init@123" 101
    ∧ (retrieveCredential ⟨demoCreated.store, []⟩ "alice" "NPW1aaaaaaaa" 101).2
      = (retrieveCredential ⟨demoCreated.store, [⟨"alice", "NPW2bbbbbbbb", 112⟩]⟩
          "alice" "NPW2bbbbbbbb" 101).2 :=
  c6_retrieve_immediate demoCreated.store [] [⟨"alice", "NPW2bbbbbbbb", 112⟩]
    "alice" "NPW1aaaaaaaa" "NPW2bbbbbbbb" 101 ⟨1, "alice", "Init@123", 100⟩
    (by decide) rfl

/-- Claim C7: creating a username that is already stored fails with
409 (the insert itself hits the duplicate-key error of the unique
index `uniq_username` — the handler performs no pre-check), and the
whole state, in particular the first record, is left unmodified. -/
theorem c7_duplicate_create (s : VaultState) (un pw : String) (oid now : Nat)
    (c : Credential) (hu : un ≠ "") (hp : pw ≠ "")
    (h : findCred s.store un = some c) :
    createCredential s un pw oid now = (s, .conflict409) := by
  have hc : c ∈ s.store ∧ c.username = un := by
    have hmem := List.mem_of_find?_eq_some h
    have hp' := List.find?_some h
    simp only [decide_eq_true_eq] at hp'
    exact ⟨hmem, hp'⟩
  have hany : s.store.any (fun c0 => c0.username = un) = true :=
    List.any_eq_true.mpr ⟨c, hc.1, by simp [hc.2]⟩
  simp [createCredential, insertOne, hu, hp, hany]

/-- Witness for C7: re-creating `alice` yields 409 and the state of the
first create, untouched. -/
theorem c7_witness :
    createCredential demoCreated "alice" "Other@999" 2 200 = (demoCreated, .conflict409) :=
  c7_duplicate_create demoCreated "alice" "Other@999" 2 200 ⟨1, "alice", "Init@123", 100⟩
    (by decide) (by decide) rfl

/-- Claim C8: retrieving a username absent from the store answers 404
and changes nothing — in particular the pending set is untouched, so no
rotation is scheduled. -/
theorem c8_not_found (s : VaultState) (un npw : String) (now : Nat)
    (hne : un ≠ "") (h : findCred s.store un = none) :
    retrieveCredential s un npw now = (s, .notFound404) := by
  simp [retrieveCredential, hne, h]

/-- Witness for C8: retrieving `bob` from the demo store. -/
theorem c8_witness :
    retrieveCredential demoCreated "bob" "NPW1aaaaaaaa" 101 = (demoCreated, .notFound404) :=
  c8_not_found demoCreated "bob" "NPW1aaaaaaaa" 101 (by decide) rfl

/-- Claim C9: a successful create followed immediately by a retrieve of
the same username answers 200 with exactly the created password. -/
theorem c9_round_trip (s : VaultState) (un pw npw : String) (oid now now' : Nat)
    (hu : un ≠ "") (hp : pw ≠ "") (h : findCred s.store un = none) :
    (retrieveCredential (createCredential s un pw oid now).1 un npw now').2
      = .ok200 un pw now' := by
  have hany : s.store.any (fun c0 => c0.username = un) = false := by
    cases hb : s.store.any (fun c0 => c0.username = un) with
    | false => rfl
    | true =>
      obtain ⟨c, hmem, hcu⟩ := List.any_eq_true.mp hb
      simp only [decide_eq_true_eq] at hcu
      have := List.find?_eq_none.mp h c hmem
      simp [hcu] at this
  have hfind : findCred (s.store ++ [⟨oid, un, pw, now⟩]) un = some ⟨oid, un, pw, now⟩ :=
    findCred_append_self s.store ⟨oid, un, pw, now⟩ h
  simp [createCredential, insertOne, hu, hp, hany, retrieveCredential, hfind]

/-- Witness for C9: create `("alice", "Init@123")`, retrieve `alice`,
get back `Init@123`. -/
theorem c9_witness :
    (retrieveCredential (createCredential ⟨[], []⟩ "alice" "Init@123" 1 100).1
        "alice" "NPW1aaaaaaaa" 101).2
      = .ok200 "alice" "Init@123" 101 :=
  c9_round_trip ⟨[], []⟩ "alice" "Init@123" "NPW1aaaaaaaa" 1 100 101
    (by decide) (by decide) rfl

/-- Claim C10: a rotation's `UpdateOne` only ever touches `password`
and `last_rotated` — every stored record keeps its object id and its
username at its position, and each record is either left exactly as it
was or is the record matching the rotation's username with only
`password` and `last_rotated` rewritten. -/
theorem c10_rotation_frame (s : VaultState) (r : Rotation) (t i : Nat) :
    (((fireRotation s r t).1.store.get? i).map fun c => (c.id, c.username))
      = ((s.store.get? i).map fun c => (c.id, c.username))
    ∧ ((fireRotation s r t).1.store.get? i = s.store.get? i
       ∨ ∃ c, s.store.get? i = some c ∧ c.username = r.username ∧
           (fireRotation s r t).1.store.get? i
             = some { c with password := r.newPassword, lastRotated := t }) := by
  simpa [fireRotation] using updateOne_get? s.store r.username r.newPassword t i

end MiniCyberArk
